import Mathlib

/-!
# Verification of the `ptr-utils` unaligned scalar accessor

Shallow embedding of the repository's unaligned read/write operations
(`src/unaligned/write.rs`, `src/ptr-utils/src/unaligned/read.rs`).

Memory is modelled as a list of bytes.  A raw pointer `*const T` / `*mut T`
is modelled as a byte address together with the pointee size
`size_of::<T>()`; Rust's `<*const T>::add(n)` advances the address by
`n * size_of::<T>()` bytes, and the cast `self as *const u8` produces a
pointer with pointee size 1 at the same address — both are modelled
explicitly, so the per-method bodies below mirror the Rust bodies
`((self as *const u8).add(byte_offset) as *const U).read_unaligned()`
method by method.

The host platform's native byte order is little-endian (the repository's
own test `test_const_pointers` asserts reads against `from_le_bytes`), so
the native unaligned load/store of a `w`-byte scalar is modelled as the
little-endian decode/encode of the `w` bytes at the effective address.
The pointer width of the host is 64 bits, so `usize`/`isize` are 8 bytes.
`f32`/`f64` values are represented by their IEEE-754 bit patterns (a
natural number below `2^32` resp. `2^64`); the source moves float bytes
verbatim, so bit patterns are exactly what the operations transport.
Signed integers are represented as `Int` values in the two's-complement
range of their width.  A Rust call is a stateful operation on the memory:
a read returns the value paired with the (unchanged, since the body
performs a single load and no store) memory, and a write returns the
updated memory (Rust's return value is unit).
-/

namespace PtrUtils

/-- A memory buffer: its list of bytes (each below 256 in a well-formed state). -/
abbrev Mem := List Nat

/-- The byte stored at byte address `a` (0 when out of range; every claim
constrains accesses to lie inside the buffer). -/
def readByte (m : Mem) (a : Nat) : Nat := m.getD a 0

/-- The `n` consecutive bytes starting at byte address `a`. -/
def readBytes (m : Mem) : Nat → Nat → List Nat
  | _, 0 => []
  | a, n + 1 => readByte m a :: readBytes m (a + 1) n

/-- Store the bytes `bs` at consecutive addresses starting at `a`. -/
def writeBytes : Mem → Nat → List Nat → Mem
  | m, _, [] => m
  | m, a, b :: bs => writeBytes (m.set a b) (a + 1) bs

/-- Little-endian byte representation of width `w`: least significant byte first. -/
def toLEBytes : Nat → Nat → List Nat
  | 0, _ => []
  | w + 1, v => v % 256 :: toLEBytes w (v / 256)

/-- Little-endian decode: the first byte is the least significant. -/
def fromLEBytes : List Nat → Nat
  | [] => 0
  | b :: bs => b + 256 * fromLEBytes bs

/-- Two's-complement reinterpretation of a `w`-byte unsigned pattern as a signed value. -/
def toSigned (w u : Nat) : Int :=
  if 2 * u < 256 ^ w then (u : Int) else (u : Int) - (256 ^ w : Nat)

/-- Two's-complement `w`-byte pattern of a signed value. -/
def toUnsigned (w : Nat) (v : Int) : Nat := (v % ((256 : Int) ^ w)).toNat

/-- Model of `<*const U>::read_unaligned()` for a `w`-byte scalar `U` at byte
address `a`: a single native (little-endian) unaligned load of `w` bytes. -/
def read_unaligned (m : Mem) (a w : Nat) : Nat := fromLEBytes (readBytes m a w)

/-- Model of `<*mut U>::write_unaligned(v)` for a `w`-byte scalar `U` at byte
address `a`: a single native (little-endian) unaligned store of the `w` bytes of `v`. -/
def write_unaligned (m : Mem) (a w v : Nat) : Mem := writeBytes m a (toLEBytes w v)

/-- Model of a Rust `*const T`: the byte address and `size_of::<T>()`. -/
structure ConstPtr where
  elemSize : Nat
  base : Nat

/-- Model of a Rust `*mut T`: the byte address and `size_of::<T>()`. -/
structure MutPtr where
  elemSize : Nat
  base : Nat

/-- Model of `<*const T>::add(n)`: advances by `n * size_of::<T>()` bytes. -/
def ConstPtr.add (p : ConstPtr) (n : Nat) : ConstPtr :=
  ⟨p.elemSize, p.base + n * p.elemSize⟩

/-- Model of `<*mut T>::add(n)`: advances by `n * size_of::<T>()` bytes. -/
def MutPtr.add (p : MutPtr) (n : Nat) : MutPtr :=
  ⟨p.elemSize, p.base + n * p.elemSize⟩

/-- Model of the cast `self as *const u8`: same address, pointee size 1. -/
def ConstPtr.asU8 (p : ConstPtr) : ConstPtr := ⟨1, p.base⟩

/-- Model of the cast `self as *mut u8`: same address, pointee size 1. -/
def MutPtr.asU8 (p : MutPtr) : MutPtr := ⟨1, p.base⟩

/-- `size_of::<usize>()` on the 64-bit host. -/
def USIZE_BYTES : Nat := 8

end PtrUtils

namespace PtrUtils

-- `impl<T> UnalignedRead for *const T` (read.rs, lines 137-212), method by method.

/-- `(self as *const u8).add(byte_offset).read_unaligned()` -/
def ConstPtr.read_u8_at (p : ConstPtr) (m : Mem) (byte_offset : Nat) : Nat × Mem :=
  (read_unaligned m ((p.asU8).add byte_offset).base 1, m)

/-- `((self as *const u8).add(byte_offset) as *const u16).read_unaligned()` -/
def ConstPtr.read_u16_at (p : ConstPtr) (m : Mem) (byte_offset : Nat) : Nat × Mem :=
  (read_unaligned m ((p.asU8).add byte_offset).base 2, m)

/-- `((self as *const u8).add(byte_offset) as *const u32).read_unaligned()` -/
def ConstPtr.read_u32_at (p : ConstPtr) (m : Mem) (byte_offset : Nat) : Nat × Mem :=
  (read_unaligned m ((p.asU8).add byte_offset).base 4, m)

/-- `((self as *const u8).add(byte_offset) as *const u64).read_unaligned()` -/
def ConstPtr.read_u64_at (p : ConstPtr) (m : Mem) (byte_offset : Nat) : Nat × Mem :=
  (read_unaligned m ((p.asU8).add byte_offset).base 8, m)

/-- `((self as *const u8).add(byte_offset) as *const u128).read_unaligned()` -/
def ConstPtr.read_u128_at (p : ConstPtr) (m : Mem) (byte_offset : Nat) : Nat × Mem :=
  (read_unaligned m ((p.asU8).add byte_offset).base 16, m)

/-- `((self as *const u8).add(byte_offset) as *const usize).read_unaligned()` -/
def ConstPtr.read_usize_at (p : ConstPtr) (m : Mem) (byte_offset : Nat) : Nat × Mem :=
  (read_unaligned m ((p.asU8).add byte_offset).base USIZE_BYTES, m)

/-- `((self as *const u8).add(byte_offset) as *const i8).read_unaligned()` -/
def ConstPtr.read_i8_at (p : ConstPtr) (m : Mem) (byte_offset : Nat) : Int × Mem :=
  (toSigned 1 (read_unaligned m ((p.asU8).add byte_offset).base 1), m)

/-- `((self as *const u8).add(byte_offset) as *const i16).read_unaligned()` -/
def ConstPtr.read_i16_at (p : ConstPtr) (m : Mem) (byte_offset : Nat) : Int × Mem :=
  (toSigned 2 (read_unaligned m ((p.asU8).add byte_offset).base 2), m)

/-- `((self as *const u8).add(byte_offset) as *const i32).read_unaligned()` -/
def ConstPtr.read_i32_at (p : ConstPtr) (m : Mem) (byte_offset : Nat) : Int × Mem :=
  (toSigned 4 (read_unaligned m ((p.asU8).add byte_offset).base 4), m)

/-- `((self as *const u8).add(byte_offset) as *const i64).read_unaligned()` -/
def ConstPtr.read_i64_at (p : ConstPtr) (m : Mem) (byte_offset : Nat) : Int × Mem :=
  (toSigned 8 (read_unaligned m ((p.asU8).add byte_offset).base 8), m)

/-- `((self as *const u8).add(byte_offset) as *const i128).read_unaligned()` -/
def ConstPtr.read_i128_at (p : ConstPtr) (m : Mem) (byte_offset : Nat) : Int × Mem :=
  (toSigned 16 (read_unaligned m ((p.asU8).add byte_offset).base 16), m)

/-- `((self as *const u8).add(byte_offset) as *const isize).read_unaligned()` -/
def ConstPtr.read_isize_at (p : ConstPtr) (m : Mem) (byte_offset : Nat) : Int × Mem :=
  (toSigned USIZE_BYTES (read_unaligned m ((p.asU8).add byte_offset).base USIZE_BYTES), m)

/-- `((self as *const u8).add(byte_offset) as *const f32).read_unaligned()`;
the `f32` is represented by its bit pattern. -/
def ConstPtr.read_f32_at (p : ConstPtr) (m : Mem) (byte_offset : Nat) : Nat × Mem :=
  (read_unaligned m ((p.asU8).add byte_offset).base 4, m)

/-- `((self as *const u8).add(byte_offset) as *const f64).read_unaligned()`;
the `f64` is represented by its bit pattern. -/
def ConstPtr.read_f64_at (p : ConstPtr) (m : Mem) (byte_offset : Nat) : Nat × Mem :=
  (read_unaligned m ((p.asU8).add byte_offset).base 8, m)

/-- `((self as *const u8).add(byte_offset) as *const bool).read_unaligned()`;
the loaded byte is 1 for `true` (the precondition requires it to be 0 or 1). -/
def ConstPtr.read_bool_at (p : ConstPtr) (m : Mem) (byte_offset : Nat) : Bool × Mem :=
  (read_unaligned m ((p.asU8).add byte_offset).base 1 == 1, m)

-- `impl<T> UnalignedRead for *mut T` (read.rs, lines 215-290): a second,
-- textually identical set of method bodies (`self as *const u8` on a `*mut T`
-- likewise yields the byte address with pointee size 1).

/-- `(self as *const u8).add(byte_offset).read_unaligned()` on a `*mut T`. -/
def MutPtr.read_u8_at (p : MutPtr) (m : Mem) (byte_offset : Nat) : Nat × Mem :=
  (read_unaligned m ((p.asU8).add byte_offset).base 1, m)

/-- `((self as *const u8).add(byte_offset) as *const u16).read_unaligned()` on a `*mut T`. -/
def MutPtr.read_u16_at (p : MutPtr) (m : Mem) (byte_offset : Nat) : Nat × Mem :=
  (read_unaligned m ((p.asU8).add byte_offset).base 2, m)

/-- `((self as *const u8).add(byte_offset) as *const u32).read_unaligned()` on a `*mut T`. -/
def MutPtr.read_u32_at (p : MutPtr) (m : Mem) (byte_offset : Nat) : Nat × Mem :=
  (read_unaligned m ((p.asU8).add byte_offset).base 4, m)

/-- `((self as *const u8).add(byte_offset) as *const u64).read_unaligned()` on a `*mut T`. -/
def MutPtr.read_u64_at (p : MutPtr) (m : Mem) (byte_offset : Nat) : Nat × Mem :=
  (read_unaligned m ((p.asU8).add byte_offset).base 8, m)

/-- `((self as *const u8).add(byte_offset) as *const u128).read_unaligned()` on a `*mut T`. -/
def MutPtr.read_u128_at (p : MutPtr) (m : Mem) (byte_offset : Nat) : Nat × Mem :=
  (read_unaligned m ((p.asU8).add byte_offset).base 16, m)

/-- `((self as *const u8).add(byte_offset) as *const usize).read_unaligned()` on a `*mut T`. -/
def MutPtr.read_usize_at (p : MutPtr) (m : Mem) (byte_offset : Nat) : Nat × Mem :=
  (read_unaligned m ((p.asU8).add byte_offset).base USIZE_BYTES, m)

/-- `((self as *const u8).add(byte_offset) as *const i8).read_unaligned()` on a `*mut T`. -/
def MutPtr.read_i8_at (p : MutPtr) (m : Mem) (byte_offset : Nat) : Int × Mem :=
  (toSigned 1 (read_unaligned m ((p.asU8).add byte_offset).base 1), m)

/-- `((self as *const u8).add(byte_offset) as *const i16).read_unaligned()` on a `*mut T`. -/
def MutPtr.read_i16_at (p : MutPtr) (m : Mem) (byte_offset : Nat) : Int × Mem :=
  (toSigned 2 (read_unaligned m ((p.asU8).add byte_offset).base 2), m)

/-- `((self as *const u8).add(byte_offset) as *const i32).read_unaligned()` on a `*mut T`. -/
def MutPtr.read_i32_at (p : MutPtr) (m : Mem) (byte_offset : Nat) : Int × Mem :=
  (toSigned 4 (read_unaligned m ((p.asU8).add byte_offset).base 4), m)

/-- `((self as *const u8).add(byte_offset) as *const i64).read_unaligned()` on a `*mut T`. -/
def MutPtr.read_i64_at (p : MutPtr) (m : Mem) (byte_offset : Nat) : Int × Mem :=
  (toSigned 8 (read_unaligned m ((p.asU8).add byte_offset).base 8), m)

/-- `((self as *const u8).add(byte_offset) as *const i128).read_unaligned()` on a `*mut T`. -/
def MutPtr.read_i128_at (p : MutPtr) (m : Mem) (byte_offset : Nat) : Int × Mem :=
  (toSigned 16 (read_unaligned m ((p.asU8).add byte_offset).base 16), m)

/-- `((self as *const u8).add(byte_offset) as *const isize).read_unaligned()` on a `*mut T`. -/
def MutPtr.read_isize_at (p : MutPtr) (m : Mem) (byte_offset : Nat) : Int × Mem :=
  (toSigned USIZE_BYTES (read_unaligned m ((p.asU8).add byte_offset).base USIZE_BYTES), m)

/-- `((self as *const u8).add(byte_offset) as *const f32).read_unaligned()` on a `*mut T`. -/
def MutPtr.read_f32_at (p : MutPtr) (m : Mem) (byte_offset : Nat) : Nat × Mem :=
  (read_unaligned m ((p.asU8).add byte_offset).base 4, m)

/-- `((self as *const u8).add(byte_offset) as *const f64).read_unaligned()` on a `*mut T`. -/
def MutPtr.read_f64_at (p : MutPtr) (m : Mem) (byte_offset : Nat) : Nat × Mem :=
  (read_unaligned m ((p.asU8).add byte_offset).base 8, m)

/-- `((self as *const u8).add(byte_offset) as *const bool).read_unaligned()` on a `*mut T`. -/
def MutPtr.read_bool_at (p : MutPtr) (m : Mem) (byte_offset : Nat) : Bool × Mem :=
  (read_unaligned m ((p.asU8).add byte_offset).base 1 == 1, m)

-- `impl<T> UnalignedWrite for *mut T` (write.rs, lines 146-221).
-- Rust returns unit; the model returns the updated memory.

/-- `(self as *mut u8).add(byte_offset).write_unaligned(value)` -/
def MutPtr.write_u8_at (p : MutPtr) (m : Mem) (byte_offset : Nat) (value : Nat) : Mem :=
  write_unaligned m ((p.asU8).add byte_offset).base 1 value

/-- `((self as *mut u8).add(byte_offset) as *mut u16).write_unaligned(value)` -/
def MutPtr.write_u16_at (p : MutPtr) (m : Mem) (byte_offset : Nat) (value : Nat) : Mem :=
  write_unaligned m ((p.asU8).add byte_offset).base 2 value

/-- `((self as *mut u8).add(byte_offset) as *mut u32).write_unaligned(value)` -/
def MutPtr.write_u32_at (p : MutPtr) (m : Mem) (byte_offset : Nat) (value : Nat) : Mem :=
  write_unaligned m ((p.asU8).add byte_offset).base 4 value

/-- `((self as *mut u8).add(byte_offset) as *mut u64).write_unaligned(value)` -/
def MutPtr.write_u64_at (p : MutPtr) (m : Mem) (byte_offset : Nat) (value : Nat) : Mem :=
  write_unaligned m ((p.asU8).add byte_offset).base 8 value

/-- `((self as *mut u8).add(byte_offset) as *mut u128).write_unaligned(value)` -/
def MutPtr.write_u128_at (p : MutPtr) (m : Mem) (byte_offset : Nat) (value : Nat) : Mem :=
  write_unaligned m ((p.asU8).add byte_offset).base 16 value

/-- `((self as *mut u8).add(byte_offset) as *mut usize).write_unaligned(value)` -/
def MutPtr.write_usize_at (p : MutPtr) (m : Mem) (byte_offset : Nat) (value : Nat) : Mem :=
  write_unaligned m ((p.asU8).add byte_offset).base USIZE_BYTES value

/-- `((self as *mut u8).add(byte_offset) as *mut i8).write_unaligned(value)`;
the store moves the two's-complement byte pattern of `value`. -/
def MutPtr.write_i8_at (p : MutPtr) (m : Mem) (byte_offset : Nat) (value : Int) : Mem :=
  write_unaligned m ((p.asU8).add byte_offset).base 1 (toUnsigned 1 value)

/-- `((self as *mut u8).add(byte_offset) as *mut i16).write_unaligned(value)` -/
def MutPtr.write_i16_at (p : MutPtr) (m : Mem) (byte_offset : Nat) (value : Int) : Mem :=
  write_unaligned m ((p.asU8).add byte_offset).base 2 (toUnsigned 2 value)

/-- `((self as *mut u8).add(byte_offset) as *mut i32).write_unaligned(value)` -/
def MutPtr.write_i32_at (p : MutPtr) (m : Mem) (byte_offset : Nat) (value : Int) : Mem :=
  write_unaligned m ((p.asU8).add byte_offset).base 4 (toUnsigned 4 value)

/-- `((self as *mut u8).add(byte_offset) as *mut i64).write_unaligned(value)` -/
def MutPtr.write_i64_at (p : MutPtr) (m : Mem) (byte_offset : Nat) (value : Int) : Mem :=
  write_unaligned m ((p.asU8).add byte_offset).base 8 (toUnsigned 8 value)

/-- `((self as *mut u8).add(byte_offset) as *mut i128).write_unaligned(value)` -/
def MutPtr.write_i128_at (p : MutPtr) (m : Mem) (byte_offset : Nat) (value : Int) : Mem :=
  write_unaligned m ((p.asU8).add byte_offset).base 16 (toUnsigned 16 value)

/-- `((self as *mut u8).add(byte_offset) as *mut isize).write_unaligned(value)` -/
def MutPtr.write_isize_at (p : MutPtr) (m : Mem) (byte_offset : Nat) (value : Int) : Mem :=
  write_unaligned m ((p.asU8).add byte_offset).base USIZE_BYTES (toUnsigned USIZE_BYTES value)

/-- `((self as *mut u8).add(byte_offset) as *mut f32).write_unaligned(value)`;
the `f32` is represented by its bit pattern, whose bytes the store moves verbatim. -/
def MutPtr.write_f32_at (p : MutPtr) (m : Mem) (byte_offset : Nat) (value : Nat) : Mem :=
  write_unaligned m ((p.asU8).add byte_offset).base 4 value

/-- `((self as *mut u8).add(byte_offset) as *mut f64).write_unaligned(value)` -/
def MutPtr.write_f64_at (p : MutPtr) (m : Mem) (byte_offset : Nat) (value : Nat) : Mem :=
  write_unaligned m ((p.asU8).add byte_offset).base 8 value

/-- `((self as *mut u8).add(byte_offset) as *mut bool).write_unaligned(value)`;
`true` is stored as the byte 1 and `false` as the byte 0. -/
def MutPtr.write_bool_at (p : MutPtr) (m : Mem) (byte_offset : Nat) (value : Bool) : Mem :=
  write_unaligned m ((p.asU8).add byte_offset).base 1 (if value then 1 else 0)

/-! ## Byte-level lemmas about the memory model -/

theorem length_writeBytes (bs : List Nat) :
    ∀ (m : Mem) (a : Nat), (writeBytes m a bs).length = m.length := by
  induction bs with
  | nil => intro m a; rfl
  | cons b bs ih =>
      intro m a
      rw [writeBytes, ih, List.length_set]

theorem readByte_set_self (m : Mem) (a b : Nat) (h : a < m.length) :
    readByte (m.set a b) a = b := by
  simp [readByte, List.getD, List.getElem?_set_self', h]

theorem readByte_set_ne (m : Mem) (a b j : Nat) (h : a ≠ j) :
    readByte (m.set a b) j = readByte m j := by
  simp [readByte, List.getD, List.getElem?_set_ne h]

theorem readByte_writeBytes_lt (bs : List Nat) :
    ∀ (m : Mem) (a j : Nat), j < a →
      readByte (writeBytes m a bs) j = readByte m j := by
  induction bs with
  | nil => intro m a j _; rfl
  | cons b bs ih =>
      intro m a j hj
      rw [writeBytes, ih _ _ _ (by omega), readByte_set_ne _ _ _ _ (by omega)]

theorem readByte_writeBytes_ge (bs : List Nat) :
    ∀ (m : Mem) (a j : Nat), a + bs.length ≤ j →
      readByte (writeBytes m a bs) j = readByte m j := by
  induction bs with
  | nil => intro m a j _; rfl
  | cons b bs ih =>
      intro m a j hj
      rw [List.length_cons] at hj
      rw [writeBytes, ih _ _ _ (by omega), readByte_set_ne _ _ _ _ (by omega)]

theorem readByte_writeBytes_in (bs : List Nat) :
    ∀ (m : Mem) (a i : Nat), i < bs.length → a + bs.length ≤ m.length →
      readByte (writeBytes m a bs) (a + i) = bs.getD i 0 := by
  induction bs with
  | nil => intro m a i hi _; exact absurd hi (by simp)
  | cons b bs ih =>
      intro m a i hi hlen
      rw [List.length_cons] at hi hlen
      rw [writeBytes]
      match i with
      | 0 =>
          rw [readByte_writeBytes_lt _ _ _ _ (by omega)]
          simpa using readByte_set_self m a b (by omega)
      | i + 1 =>
          have := ih (m.set a b) (a + 1) i (by omega) (by rw [List.length_set]; omega)
          rw [show a + (i + 1) = a + 1 + i by omega, this]
          rfl

theorem readBytes_writeBytes (bs : List Nat) :
    ∀ (m : Mem) (a : Nat), a + bs.length ≤ m.length →
      readBytes (writeBytes m a bs) a bs.length = bs := by
  induction bs with
  | nil => intro m a _; rfl
  | cons b bs ih =>
      intro m a hlen
      rw [List.length_cons] at hlen
      rw [List.length_cons, writeBytes, readBytes]
      congr 1
      · rw [readByte_writeBytes_lt _ _ _ _ (by omega)]
        exact readByte_set_self m a b (by omega)
      · exact ih (m.set a b) (a + 1) (by rw [List.length_set]; omega)

/-! ## The little-endian codec -/

theorem length_toLEBytes (w : Nat) : ∀ v : Nat, (toLEBytes w v).length = w := by
  induction w with
  | zero => intro v; rfl
  | succ w ih => intro v; rw [toLEBytes, List.length_cons, ih]

theorem fromLEBytes_toLEBytes (w : Nat) :
    ∀ v : Nat, fromLEBytes (toLEBytes w v) = v % 256 ^ w := by
  induction w with
  | zero => intro v; simp [toLEBytes, fromLEBytes, Nat.mod_one]
  | succ w ih =>
      intro v
      rw [toLEBytes, fromLEBytes, ih, pow_succ, mul_comm (256 ^ w) 256, Nat.mod_mul]

theorem getD_toLEBytes (w : Nat) :
    ∀ (v i : Nat), i < w → (toLEBytes w v).getD i 0 = v / 256 ^ i % 256 := by
  induction w with
  | zero => intro v i hi; omega
  | succ w ih =>
      intro v i hi
      match i with
      | 0 => simp [toLEBytes, List.getD]
      | i + 1 =>
          have := ih (v / 256) i (by omega)
          rw [toLEBytes]
          simpa [List.getD, Nat.div_div_eq_div_mul, pow_succ, mul_comm] using this

/-! ## The core unaligned load/store -/

theorem read_write_unaligned (m : Mem) (a w v : Nat)
    (hlen : a + w ≤ m.length) (hv : v < 256 ^ w) :
    read_unaligned (write_unaligned m a w v) a w = v := by
  have h := readBytes_writeBytes (toLEBytes w v) m a (by rw [length_toLEBytes]; exact hlen)
  rw [length_toLEBytes] at h
  rw [read_unaligned, write_unaligned, h, fromLEBytes_toLEBytes, Nat.mod_eq_of_lt hv]

theorem readByte_write_unaligned_frame (m : Mem) (a w v j : Nat)
    (h : j < a ∨ a + w ≤ j) :
    readByte (write_unaligned m a w v) j = readByte m j := by
  rcases h with h | h
  · exact readByte_writeBytes_lt _ _ _ _ h
  · exact readByte_writeBytes_ge _ _ _ _ (by rw [length_toLEBytes]; exact h)

theorem readByte_write_unaligned_in (m : Mem) (a w v i : Nat)
    (hi : i < w) (hlen : a + w ≤ m.length) :
    readByte (write_unaligned m a w v) (a + i) = v / 256 ^ i % 256 := by
  rw [write_unaligned,
    readByte_writeBytes_in _ _ _ _ (by rw [length_toLEBytes]; exact hi)
      (by rw [length_toLEBytes]; exact hlen),
    getD_toLEBytes _ _ _ hi]

theorem read_unaligned_eq_sum (w : Nat) :
    ∀ (m : Mem) (a : Nat),
      read_unaligned m a w = ∑ i ∈ Finset.range w, 256 ^ i * readByte m (a + i) := by
  induction w with
  | zero => intro m a; simp [read_unaligned, readBytes, fromLEBytes]
  | succ w ih =>
      intro m a
      have step : read_unaligned m a (w + 1)
          = readByte m a + 256 * read_unaligned m (a + 1) w := rfl
      rw [step, ih, Finset.sum_range_succ' (fun i => 256 ^ i * readByte m (a + i)) w]
      simp only [pow_zero, one_mul, Nat.add_zero]
      rw [add_comm]
      congr 1
      rw [Finset.mul_sum]
      refine Finset.sum_congr rfl fun i _ => ?_
      rw [show a + 1 + i = a + (i + 1) by omega, pow_succ]
      ring

theorem read_unaligned_one (m : Mem) (a : Nat) : read_unaligned m a 1 = readByte m a := by
  simp [read_unaligned, readBytes, fromLEBytes]

theorem length_write_unaligned (m : Mem) (a w v : Nat) :
    (write_unaligned m a w v).length = m.length := by
  rw [write_unaligned, length_writeBytes]

/-! ## Signed (two's-complement) value lemmas -/

theorem toUnsigned_lt (w : Nat) (v : Int) : toUnsigned w v < 256 ^ w := by
  have n0 : (0 : Int) < (256 : Int) ^ w := by positivity
  have hlt : v % ((256 : Int) ^ w) < (256 : Int) ^ w := Int.emod_lt_of_pos v n0
  have hcast : (((256 : Nat) ^ w : Nat) : Int) = (256 : Int) ^ w := by push_cast; ring
  rw [toUnsigned]
  omega

theorem toSigned_toUnsigned (w : Nat) (v : Int)
    (h1 : -((256 : Int) ^ w) ≤ 2 * v) (h2 : 2 * v < (256 : Int) ^ w) :
    toSigned w (toUnsigned w v) = v := by
  have n0 : (0 : Int) < (256 : Int) ^ w := by positivity
  have hnn : 0 ≤ v % ((256 : Int) ^ w) := Int.emod_nonneg v (by omega)
  have key : ((toUnsigned w v : Nat) : Int) = v % ((256 : Int) ^ w) :=
    Int.toNat_of_nonneg hnn
  have hval : v % ((256 : Int) ^ w) = v ∨ v % ((256 : Int) ^ w) = v + (256 : Int) ^ w := by
    rcases le_or_lt 0 v with hv | hv
    · exact Or.inl (Int.emod_eq_of_lt hv (by omega))
    · refine Or.inr ?_
      have hh : (v + (256 : Int) ^ w) % ((256 : Int) ^ w) = v % ((256 : Int) ^ w) := by
        simp [Int.add_emod]
      rw [← hh]
      exact Int.emod_eq_of_lt (by omega) (by omega)
  have hcast : (((256 : Nat) ^ w : Nat) : Int) = (256 : Int) ^ w := by push_cast; ring
  rw [toSigned]
  rcases hval with h | h <;> split_ifs with hc <;> omega

/-! ## Effective addresses -/

/-- The effective byte address of every method body: the `as *const u8` cast
resets the pointee size to 1, so `add` advances by `byte_offset * 1` bytes. -/
theorem constEffAddr (p : ConstPtr) (o : Nat) : ((p.asU8).add o).base = p.base + o := by
  simp [ConstPtr.asU8, ConstPtr.add]

/-- The effective byte address of every method body on a `*mut T`. -/
theorem mutEffAddr (p : MutPtr) (o : Nat) : ((p.asU8).add o).base = p.base + o := by
  simp [MutPtr.asU8, MutPtr.add]

/-! ## Claim theorems -/

/-- Claim C1: for every supported scalar type T, every buffer, every byte offset
`o` with `[o, o+sizeof(T))` inside the buffer, and every representable value `v`
of type T (signed extremes, zero, all-ones patterns, arbitrary `f32`/`f64` bit
patterns including NaN and infinity compared by bit pattern, and both booleans),
`write_T_at` followed by `read_T_at` at the same offset returns `v`. -/
theorem C1_write_then_read_round_trip (p : MutPtr) (m : Mem) (o : Nat) :
    (∀ v : Nat, v < 256 ^ 1 → p.base + o + 1 ≤ m.length →
      (p.read_u8_at (p.write_u8_at m o v) o).1 = v) ∧
    (∀ v : Nat, v < 256 ^ 2 → p.base + o + 2 ≤ m.length →
      (p.read_u16_at (p.write_u16_at m o v) o).1 = v) ∧
    (∀ v : Nat, v < 256 ^ 4 → p.base + o + 4 ≤ m.length →
      (p.read_u32_at (p.write_u32_at m o v) o).1 = v) ∧
    (∀ v : Nat, v < 256 ^ 8 → p.base + o + 8 ≤ m.length →
      (p.read_u64_at (p.write_u64_at m o v) o).1 = v) ∧
    (∀ v : Nat, v < 256 ^ 16 → p.base + o + 16 ≤ m.length →
      (p.read_u128_at (p.write_u128_at m o v) o).1 = v) ∧
    (∀ v : Nat, v < 256 ^ 8 → p.base + o + 8 ≤ m.length →
      (p.read_usize_at (p.write_usize_at m o v) o).1 = v) ∧
    (∀ v : Int, -(2 ^ 7) ≤ v → v < 2 ^ 7 → p.base + o + 1 ≤ m.length →
      (p.read_i8_at (p.write_i8_at m o v) o).1 = v) ∧
    (∀ v : Int, -(2 ^ 15) ≤ v → v < 2 ^ 15 → p.base + o + 2 ≤ m.length →
      (p.read_i16_at (p.write_i16_at m o v) o).1 = v) ∧
    (∀ v : Int, -(2 ^ 31) ≤ v → v < 2 ^ 31 → p.base + o + 4 ≤ m.length →
      (p.read_i32_at (p.write_i32_at m o v) o).1 = v) ∧
    (∀ v : Int, -(2 ^ 63) ≤ v → v < 2 ^ 63 → p.base + o + 8 ≤ m.length →
      (p.read_i64_at (p.write_i64_at m o v) o).1 = v) ∧
    (∀ v : Int, -(2 ^ 127) ≤ v → v < 2 ^ 127 → p.base + o + 16 ≤ m.length →
      (p.read_i128_at (p.write_i128_at m o v) o).1 = v) ∧
    (∀ v : Int, -(2 ^ 63) ≤ v → v < 2 ^ 63 → p.base + o + 8 ≤ m.length →
      (p.read_isize_at (p.write_isize_at m o v) o).1 = v) ∧
    (∀ v : Nat, v < 256 ^ 4 → p.base + o + 4 ≤ m.length →
      (p.read_f32_at (p.write_f32_at m o v) o).1 = v) ∧
    (∀ v : Nat, v < 256 ^ 8 → p.base + o + 8 ≤ m.length →
      (p.read_f64_at (p.write_f64_at m o v) o).1 = v) ∧
    (∀ v : Bool, p.base + o + 1 ≤ m.length →
      (p.read_bool_at (p.write_bool_at m o v) o).1 = v) := by
  refine ⟨?_, ?_, ?_, ?_, ?_, ?_, ?_, ?_, ?_, ?_, ?_, ?_, ?_, ?_, ?_⟩
  · intro v hv hlen
    simp only [MutPtr.read_u8_at, MutPtr.write_u8_at, mutEffAddr]
    exact read_write_unaligned _ _ _ _ hlen hv
  · intro v hv hlen
    simp only [MutPtr.read_u16_at, MutPtr.write_u16_at, mutEffAddr]
    exact read_write_unaligned _ _ _ _ hlen hv
  · intro v hv hlen
    simp only [MutPtr.read_u32_at, MutPtr.write_u32_at, mutEffAddr]
    exact read_write_unaligned _ _ _ _ hlen hv
  · intro v hv hlen
    simp only [MutPtr.read_u64_at, MutPtr.write_u64_at, mutEffAddr]
    exact read_write_unaligned _ _ _ _ hlen hv
  · intro v hv hlen
    simp only [MutPtr.read_u128_at, MutPtr.write_u128_at, mutEffAddr]
    exact read_write_unaligned _ _ _ _ hlen hv
  · intro v hv hlen
    simp only [MutPtr.read_usize_at, MutPtr.write_usize_at, mutEffAddr, USIZE_BYTES]
    exact read_write_unaligned _ _ _ _ hlen hv
  · intro v h1 h2 hlen
    simp only [MutPtr.read_i8_at, MutPtr.write_i8_at, mutEffAddr]
    rw [read_write_unaligned _ _ _ _ hlen (toUnsigned_lt _ _)]
    exact toSigned_toUnsigned 1 v (by norm_num at h1 ⊢; omega) (by norm_num at h2 ⊢; omega)
  · intro v h1 h2 hlen
    simp only [MutPtr.read_i16_at, MutPtr.write_i16_at, mutEffAddr]
    rw [read_write_unaligned _ _ _ _ hlen (toUnsigned_lt _ _)]
    exact toSigned_toUnsigned 2 v (by norm_num at h1 ⊢; omega) (by norm_num at h2 ⊢; omega)
  · intro v h1 h2 hlen
    simp only [MutPtr.read_i32_at, MutPtr.write_i32_at, mutEffAddr]
    rw [read_write_unaligned _ _ _ _ hlen (toUnsigned_lt _ _)]
    exact toSigned_toUnsigned 4 v (by norm_num at h1 ⊢; omega) (by norm_num at h2 ⊢; omega)
  · intro v h1 h2 hlen
    simp only [MutPtr.read_i64_at, MutPtr.write_i64_at, mutEffAddr]
    rw [read_write_unaligned _ _ _ _ hlen (toUnsigned_lt _ _)]
    exact toSigned_toUnsigned 8 v (by norm_num at h1 ⊢; omega) (by norm_num at h2 ⊢; omega)
  · intro v h1 h2 hlen
    simp only [MutPtr.read_i128_at, MutPtr.write_i128_at, mutEffAddr]
    rw [read_write_unaligned _ _ _ _ hlen (toUnsigned_lt _ _)]
    exact toSigned_toUnsigned 16 v (by norm_num at h1 ⊢; omega) (by norm_num at h2 ⊢; omega)
  · intro v h1 h2 hlen
    simp only [MutPtr.read_isize_at, MutPtr.write_isize_at, mutEffAddr, USIZE_BYTES]
    rw [read_write_unaligned _ _ _ _ hlen (toUnsigned_lt _ _)]
    exact toSigned_toUnsigned 8 v (by norm_num at h1 ⊢; omega) (by norm_num at h2 ⊢; omega)
  · intro v hv hlen
    simp only [MutPtr.read_f32_at, MutPtr.write_f32_at, mutEffAddr]
    exact read_write_unaligned _ _ _ _ hlen hv
  · intro v hv hlen
    simp only [MutPtr.read_f64_at, MutPtr.write_f64_at, mutEffAddr]
    exact read_write_unaligned _ _ _ _ hlen hv
  · intro v hlen
    cases v
    · simp only [MutPtr.read_bool_at, MutPtr.write_bool_at, mutEffAddr]
      rw [read_write_unaligned _ _ _ _ hlen (by decide)]
      decide
    · simp only [MutPtr.read_bool_at, MutPtr.write_bool_at, mutEffAddr]
      rw [read_write_unaligned _ _ _ _ hlen (by decide)]
      decide

/-- Witness for C1 at concrete inputs: a `u32` round-trip at unaligned offset 1
of a 5-byte buffer, the `i8` minimum, and a boolean. -/
theorem C1_write_then_read_round_trip_witness :
    ((MutPtr.read_u32_at ⟨1, 0⟩
        (MutPtr.write_u32_at ⟨1, 0⟩ [0, 0, 0, 0, 0] 1 305419896) 1).1 = 305419896) ∧
    ((MutPtr.read_i8_at ⟨1, 0⟩
        (MutPtr.write_i8_at ⟨1, 0⟩ [0, 0] 0 (-128)) 0).1 = -128) ∧
    ((MutPtr.read_bool_at ⟨1, 0⟩
        (MutPtr.write_bool_at ⟨1, 0⟩ [0, 0] 0 true) 0).1 = true) := by
  refine ⟨?_, ?_, ?_⟩
  · exact (C1_write_then_read_round_trip ⟨1, 0⟩ [0, 0, 0, 0, 0] 1).2.2.1
      305419896 (by norm_num) (by norm_num)
  · exact (C1_write_then_read_round_trip ⟨1, 0⟩ [0, 0] 0).2.2.2.2.2.2.1
      (-128) (by norm_num) (by norm_num) (by norm_num)
  · exact (C1_write_then_read_round_trip ⟨1, 0⟩ [0, 0] 0).2.2.2.2.2.2.2.2.2.2.2.2.2.2
      true (by norm_num)

/-- Claim C2: for every supported scalar type T and every in-range byte offset,
`read_T_at` returns exactly the value whose byte representation equals the
`sizeof(T)` bytes at `[o, o+sizeof(T))`, in the host's native (little-endian)
byte order, stated against the explicit positional conversion
`∑ i, 256^i * byte(o+i)` rather than the decoder used by the operations; in
particular reading the bytes `[0x12, 0x34, 0x56, 0x78]` as a 4-byte unsigned
integer yields `0x78563412 = 2018915346`. -/
theorem C2_read_decodes_native_byte_order (p : ConstPtr) (m : Mem) (o : Nat) :
    (p.base + o + 1 ≤ m.length → (p.read_u8_at m o).1 = readByte m (p.base + o)) ∧
    (p.base + o + 2 ≤ m.length →
      (p.read_u16_at m o).1 = ∑ i ∈ Finset.range 2, 256 ^ i * readByte m (p.base + o + i)) ∧
    (p.base + o + 4 ≤ m.length →
      (p.read_u32_at m o).1 = ∑ i ∈ Finset.range 4, 256 ^ i * readByte m (p.base + o + i)) ∧
    (p.base + o + 8 ≤ m.length →
      (p.read_u64_at m o).1 = ∑ i ∈ Finset.range 8, 256 ^ i * readByte m (p.base + o + i)) ∧
    (p.base + o + 16 ≤ m.length →
      (p.read_u128_at m o).1 = ∑ i ∈ Finset.range 16, 256 ^ i * readByte m (p.base + o + i)) ∧
    (p.base + o + 8 ≤ m.length →
      (p.read_usize_at m o).1 = ∑ i ∈ Finset.range 8, 256 ^ i * readByte m (p.base + o + i)) ∧
    (p.base + o + 1 ≤ m.length →
      (p.read_i8_at m o).1 = toSigned 1 (readByte m (p.base + o))) ∧
    (p.base + o + 2 ≤ m.length →
      (p.read_i16_at m o).1
        = toSigned 2 (∑ i ∈ Finset.range 2, 256 ^ i * readByte m (p.base + o + i))) ∧
    (p.base + o + 4 ≤ m.length →
      (p.read_i32_at m o).1
        = toSigned 4 (∑ i ∈ Finset.range 4, 256 ^ i * readByte m (p.base + o + i))) ∧
    (p.base + o + 8 ≤ m.length →
      (p.read_i64_at m o).1
        = toSigned 8 (∑ i ∈ Finset.range 8, 256 ^ i * readByte m (p.base + o + i))) ∧
    (p.base + o + 16 ≤ m.length →
      (p.read_i128_at m o).1
        = toSigned 16 (∑ i ∈ Finset.range 16, 256 ^ i * readByte m (p.base + o + i))) ∧
    (p.base + o + 8 ≤ m.length →
      (p.read_isize_at m o).1
        = toSigned 8 (∑ i ∈ Finset.range 8, 256 ^ i * readByte m (p.base + o + i))) ∧
    (p.base + o + 4 ≤ m.length →
      (p.read_f32_at m o).1 = ∑ i ∈ Finset.range 4, 256 ^ i * readByte m (p.base + o + i)) ∧
    (p.base + o + 8 ≤ m.length →
      (p.read_f64_at m o).1 = ∑ i ∈ Finset.range 8, 256 ^ i * readByte m (p.base + o + i)) ∧
    (p.base + o + 1 ≤ m.length →
      (p.read_bool_at m o).1 = (readByte m (p.base + o) == 1)) ∧
    (readBytes m (p.base + o) 4 = [18, 52, 86, 120] → (p.read_u32_at m o).1 = 2018915346) := by
  refine ⟨?_, ?_, ?_, ?_, ?_, ?_, ?_, ?_, ?_, ?_, ?_, ?_, ?_, ?_, ?_, ?_⟩
  · intro _
    simp only [ConstPtr.read_u8_at, constEffAddr]
    exact read_unaligned_one m (p.base + o)
  · intro _
    simp only [ConstPtr.read_u16_at, constEffAddr]
    exact read_unaligned_eq_sum 2 m (p.base + o)
  · intro _
    simp only [ConstPtr.read_u32_at, constEffAddr]
    exact read_unaligned_eq_sum 4 m (p.base + o)
  · intro _
    simp only [ConstPtr.read_u64_at, constEffAddr]
    exact read_unaligned_eq_sum 8 m (p.base + o)
  · intro _
    simp only [ConstPtr.read_u128_at, constEffAddr]
    exact read_unaligned_eq_sum 16 m (p.base + o)
  · intro _
    simp only [ConstPtr.read_usize_at, constEffAddr, USIZE_BYTES]
    exact read_unaligned_eq_sum 8 m (p.base + o)
  · intro _
    simp only [ConstPtr.read_i8_at, constEffAddr]
    rw [read_unaligned_one]
  · intro _
    simp only [ConstPtr.read_i16_at, constEffAddr]
    rw [read_unaligned_eq_sum 2 m (p.base + o)]
  · intro _
    simp only [ConstPtr.read_i32_at, constEffAddr]
    rw [read_unaligned_eq_sum 4 m (p.base + o)]
  · intro _
    simp only [ConstPtr.read_i64_at, constEffAddr]
    rw [read_unaligned_eq_sum 8 m (p.base + o)]
  · intro _
    simp only [ConstPtr.read_i128_at, constEffAddr]
    rw [read_unaligned_eq_sum 16 m (p.base + o)]
  · intro _
    simp only [ConstPtr.read_isize_at, constEffAddr, USIZE_BYTES]
    rw [read_unaligned_eq_sum 8 m (p.base + o)]
  · intro _
    simp only [ConstPtr.read_f32_at, constEffAddr]
    exact read_unaligned_eq_sum 4 m (p.base + o)
  · intro _
    simp only [ConstPtr.read_f64_at, constEffAddr]
    exact read_unaligned_eq_sum 8 m (p.base + o)
  · intro _
    simp only [ConstPtr.read_bool_at, constEffAddr]
    rw [read_unaligned_one]
  · intro hbytes
    simp only [ConstPtr.read_u32_at, constEffAddr, read_unaligned, hbytes]
    rfl

/-- Witness for C2 at a concrete buffer holding `[0x12, 0x34, 0x56, 0x78]`. -/
theorem C2_read_decodes_native_byte_order_witness :
    (ConstPtr.read_u32_at ⟨1, 0⟩ [18, 52, 86, 120] 0).1 = 2018915346 := by
  exact (C2_read_decodes_native_byte_order ⟨1, 0⟩ [18, 52, 86, 120]
    0).2.2.2.2.2.2.2.2.2.2.2.2.2.2.2 (by rfl)

/-- Claim C3: for every supported scalar type T and every in-range byte offset,
after `write_T_at(a, o, v)` the `sizeof(T)` bytes at `[o, o+sizeof(T))` equal
the native (little-endian) byte-order representation of `v`: byte `i` of the
written range is `v / 256^i % 256` (for signed values, of the two's-complement
pattern `toUnsigned w v`; for floats, of the bit pattern; for booleans the
single byte is 1 or 0). -/
theorem C3_write_stores_native_byte_representation (p : MutPtr) (m : Mem) (o : Nat) :
    (∀ v i, i < 1 → p.base + o + 1 ≤ m.length →
      readByte (p.write_u8_at m o v) (p.base + o + i) = v / 256 ^ i % 256) ∧
    (∀ v i, i < 2 → p.base + o + 2 ≤ m.length →
      readByte (p.write_u16_at m o v) (p.base + o + i) = v / 256 ^ i % 256) ∧
    (∀ v i, i < 4 → p.base + o + 4 ≤ m.length →
      readByte (p.write_u32_at m o v) (p.base + o + i) = v / 256 ^ i % 256) ∧
    (∀ v i, i < 8 → p.base + o + 8 ≤ m.length →
      readByte (p.write_u64_at m o v) (p.base + o + i) = v / 256 ^ i % 256) ∧
    (∀ v i, i < 16 → p.base + o + 16 ≤ m.length →
      readByte (p.write_u128_at m o v) (p.base + o + i) = v / 256 ^ i % 256) ∧
    (∀ v i, i < 8 → p.base + o + 8 ≤ m.length →
      readByte (p.write_usize_at m o v) (p.base + o + i) = v / 256 ^ i % 256) ∧
    (∀ (v : Int) i, i < 1 → p.base + o + 1 ≤ m.length →
      readByte (p.write_i8_at m o v) (p.base + o + i) = toUnsigned 1 v / 256 ^ i % 256) ∧
    (∀ (v : Int) i, i < 2 → p.base + o + 2 ≤ m.length →
      readByte (p.write_i16_at m o v) (p.base + o + i) = toUnsigned 2 v / 256 ^ i % 256) ∧
    (∀ (v : Int) i, i < 4 → p.base + o + 4 ≤ m.length →
      readByte (p.write_i32_at m o v) (p.base + o + i) = toUnsigned 4 v / 256 ^ i % 256) ∧
    (∀ (v : Int) i, i < 8 → p.base + o + 8 ≤ m.length →
      readByte (p.write_i64_at m o v) (p.base + o + i) = toUnsigned 8 v / 256 ^ i % 256) ∧
    (∀ (v : Int) i, i < 16 → p.base + o + 16 ≤ m.length →
      readByte (p.write_i128_at m o v) (p.base + o + i) = toUnsigned 16 v / 256 ^ i % 256) ∧
    (∀ (v : Int) i, i < 8 → p.base + o + 8 ≤ m.length →
      readByte (p.write_isize_at m o v) (p.base + o + i) = toUnsigned 8 v / 256 ^ i % 256) ∧
    (∀ v i, i < 4 → p.base + o + 4 ≤ m.length →
      readByte (p.write_f32_at m o v) (p.base + o + i) = v / 256 ^ i % 256) ∧
    (∀ v i, i < 8 → p.base + o + 8 ≤ m.length →
      readByte (p.write_f64_at m o v) (p.base + o + i) = v / 256 ^ i % 256) ∧
    (∀ (v : Bool), p.base + o + 1 ≤ m.length →
      readByte (p.write_bool_at m o v) (p.base + o) = if v then 1 else 0) := by
  refine ⟨?_, ?_, ?_, ?_, ?_, ?_, ?_, ?_, ?_, ?_, ?_, ?_, ?_, ?_, ?_⟩
  · intro v i hi hlen
    simp only [MutPtr.write_u8_at, mutEffAddr]
    exact readByte_write_unaligned_in m _ 1 v i hi hlen
  · intro v i hi hlen
    simp only [MutPtr.write_u16_at, mutEffAddr]
    exact readByte_write_unaligned_in m _ 2 v i hi hlen
  · intro v i hi hlen
    simp only [MutPtr.write_u32_at, mutEffAddr]
    exact readByte_write_unaligned_in m _ 4 v i hi hlen
  · intro v i hi hlen
    simp only [MutPtr.write_u64_at, mutEffAddr]
    exact readByte_write_unaligned_in m _ 8 v i hi hlen
  · intro v i hi hlen
    simp only [MutPtr.write_u128_at, mutEffAddr]
    exact readByte_write_unaligned_in m _ 16 v i hi hlen
  · intro v i hi hlen
    simp only [MutPtr.write_usize_at, mutEffAddr, USIZE_BYTES]
    exact readByte_write_unaligned_in m _ 8 v i hi hlen
  · intro v i hi hlen
    simp only [MutPtr.write_i8_at, mutEffAddr]
    exact readByte_write_unaligned_in m _ 1 _ i hi hlen
  · intro v i hi hlen
    simp only [MutPtr.write_i16_at, mutEffAddr]
    exact readByte_write_unaligned_in m _ 2 _ i hi hlen
  · intro v i hi hlen
    simp only [MutPtr.write_i32_at, mutEffAddr]
    exact readByte_write_unaligned_in m _ 4 _ i hi hlen
  · intro v i hi hlen
    simp only [MutPtr.write_i64_at, mutEffAddr]
    exact readByte_write_unaligned_in m _ 8 _ i hi hlen
  · intro v i hi hlen
    simp only [MutPtr.write_i128_at, mutEffAddr]
    exact readByte_write_unaligned_in m _ 16 _ i hi hlen
  · intro v i hi hlen
    simp only [MutPtr.write_isize_at, mutEffAddr, USIZE_BYTES]
    exact readByte_write_unaligned_in m _ 8 _ i hi hlen
  · intro v i hi hlen
    simp only [MutPtr.write_f32_at, mutEffAddr]
    exact readByte_write_unaligned_in m _ 4 v i hi hlen
  · intro v i hi hlen
    simp only [MutPtr.write_f64_at, mutEffAddr]
    exact readByte_write_unaligned_in m _ 8 v i hi hlen
  · intro v hlen
    simp only [MutPtr.write_bool_at, mutEffAddr]
    have h := readByte_write_unaligned_in m (p.base + o) 1 (if v then 1 else 0) 0
      (by norm_num) hlen
    rw [Nat.add_zero] at h
    rw [h]
    cases v <;> rfl

/-- Witness for C3: writing `0xABCD` as a `u16` at offset 1 of a 3-byte buffer
puts `0xCD = 205` at byte 1 and `0xAB = 171` at byte 2. -/
theorem C3_write_stores_native_byte_representation_witness :
    readByte (MutPtr.write_u16_at ⟨1, 0⟩ [0, 0, 0] 1 43981) 1 = 205 ∧
    readByte (MutPtr.write_u16_at ⟨1, 0⟩ [0, 0, 0] 1 43981) 2 = 171 := by
  constructor
  · have h := (C3_write_stores_native_byte_representation ⟨1, 0⟩ [0, 0, 0] 1).2.1
      43981 0 (by norm_num) (by norm_num)
    simpa using h
  · have h := (C3_write_stores_native_byte_representation ⟨1, 0⟩ [0, 0, 0] 1).2.1
      43981 1 (by norm_num) (by norm_num)
    simpa using h

/-- Claim C4: for every supported scalar type T, `write_T_at(a, o, v)` leaves
every byte outside `[o, o+sizeof(T))` unchanged (no hypothesis on the buffer
length is even needed: an out-of-range store clips at the buffer edge and
touches no other byte of the model). -/
theorem C4_write_frame (p : MutPtr) (m : Mem) (o : Nat) :
    (∀ v j, j < p.base + o ∨ p.base + o + 1 ≤ j →
      readByte (p.write_u8_at m o v) j = readByte m j) ∧
    (∀ v j, j < p.base + o ∨ p.base + o + 2 ≤ j →
      readByte (p.write_u16_at m o v) j = readByte m j) ∧
    (∀ v j, j < p.base + o ∨ p.base + o + 4 ≤ j →
      readByte (p.write_u32_at m o v) j = readByte m j) ∧
    (∀ v j, j < p.base + o ∨ p.base + o + 8 ≤ j →
      readByte (p.write_u64_at m o v) j = readByte m j) ∧
    (∀ v j, j < p.base + o ∨ p.base + o + 16 ≤ j →
      readByte (p.write_u128_at m o v) j = readByte m j) ∧
    (∀ v j, j < p.base + o ∨ p.base + o + 8 ≤ j →
      readByte (p.write_usize_at m o v) j = readByte m j) ∧
    (∀ (v : Int) j, j < p.base + o ∨ p.base + o + 1 ≤ j →
      readByte (p.write_i8_at m o v) j = readByte m j) ∧
    (∀ (v : Int) j, j < p.base + o ∨ p.base + o + 2 ≤ j →
      readByte (p.write_i16_at m o v) j = readByte m j) ∧
    (∀ (v : Int) j, j < p.base + o ∨ p.base + o + 4 ≤ j →
      readByte (p.write_i32_at m o v) j = readByte m j) ∧
    (∀ (v : Int) j, j < p.base + o ∨ p.base + o + 8 ≤ j →
      readByte (p.write_i64_at m o v) j = readByte m j) ∧
    (∀ (v : Int) j, j < p.base + o ∨ p.base + o + 16 ≤ j →
      readByte (p.write_i128_at m o v) j = readByte m j) ∧
    (∀ (v : Int) j, j < p.base + o ∨ p.base + o + 8 ≤ j →
      readByte (p.write_isize_at m o v) j = readByte m j) ∧
    (∀ v j, j < p.base + o ∨ p.base + o + 4 ≤ j →
      readByte (p.write_f32_at m o v) j = readByte m j) ∧
    (∀ v j, j < p.base + o ∨ p.base + o + 8 ≤ j →
      readByte (p.write_f64_at m o v) j = readByte m j) ∧
    (∀ (v : Bool) j, j < p.base + o ∨ p.base + o + 1 ≤ j →
      readByte (p.write_bool_at m o v) j = readByte m j) := by
  refine ⟨?_, ?_, ?_, ?_, ?_, ?_, ?_, ?_, ?_, ?_, ?_, ?_, ?_, ?_, ?_⟩
  · intro v j hj
    simp only [MutPtr.write_u8_at, mutEffAddr]
    exact readByte_write_unaligned_frame m _ 1 v j hj
  · intro v j hj
    simp only [MutPtr.write_u16_at, mutEffAddr]
    exact readByte_write_unaligned_frame m _ 2 v j hj
  · intro v j hj
    simp only [MutPtr.write_u32_at, mutEffAddr]
    exact readByte_write_unaligned_frame m _ 4 v j hj
  · intro v j hj
    simp only [MutPtr.write_u64_at, mutEffAddr]
    exact readByte_write_unaligned_frame m _ 8 v j hj
  · intro v j hj
    simp only [MutPtr.write_u128_at, mutEffAddr]
    exact readByte_write_unaligned_frame m _ 16 v j hj
  · intro v j hj
    simp only [MutPtr.write_usize_at, mutEffAddr, USIZE_BYTES]
    exact readByte_write_unaligned_frame m _ 8 v j hj
  · intro v j hj
    simp only [MutPtr.write_i8_at, mutEffAddr]
    exact readByte_write_unaligned_frame m _ 1 _ j hj
  · intro v j hj
    simp only [MutPtr.write_i16_at, mutEffAddr]
    exact readByte_write_unaligned_frame m _ 2 _ j hj
  · intro v j hj
    simp only [MutPtr.write_i32_at, mutEffAddr]
    exact readByte_write_unaligned_frame m _ 4 _ j hj
  · intro v j hj
    simp only [MutPtr.write_i64_at, mutEffAddr]
    exact readByte_write_unaligned_frame m _ 8 _ j hj
  · intro v j hj
    simp only [MutPtr.write_i128_at, mutEffAddr]
    exact readByte_write_unaligned_frame m _ 16 _ j hj
  · intro v j hj
    simp only [MutPtr.write_isize_at, mutEffAddr, USIZE_BYTES]
    exact readByte_write_unaligned_frame m _ 8 _ j hj
  · intro v j hj
    simp only [MutPtr.write_f32_at, mutEffAddr]
    exact readByte_write_unaligned_frame m _ 4 v j hj
  · intro v j hj
    simp only [MutPtr.write_f64_at, mutEffAddr]
    exact readByte_write_unaligned_frame m _ 8 v j hj
  · intro v j hj
    simp only [MutPtr.write_bool_at, mutEffAddr]
    exact readByte_write_unaligned_frame m _ 1 _ j hj

/-- Witness for C4: a 4-byte write at offset 1 of an 8-byte buffer disturbs
neither byte 0 nor byte 5, and a 4-byte write at offset 4 leaves a field
previously written at offset 0 unchanged. -/
theorem C4_write_frame_witness :
    readByte (MutPtr.write_u32_at ⟨1, 0⟩ [1, 2, 3, 4, 5, 6, 7, 8] 1 3735928559) 0 = 1 ∧
    readByte (MutPtr.write_u32_at ⟨1, 0⟩ [1, 2, 3, 4, 5, 6, 7, 8] 1 3735928559) 5 = 6 ∧
    readByte (MutPtr.write_u32_at ⟨1, 0⟩
      (MutPtr.write_u32_at ⟨1, 0⟩ [0, 0, 0, 0, 0, 0, 0, 0] 0 287454020) 4 2864434397) 0
      = 68 := by
  refine ⟨?_, ?_, ?_⟩
  · have h := (C4_write_frame ⟨1, 0⟩ [1, 2, 3, 4, 5, 6, 7, 8] 1).2.2.1
      3735928559 0 (Or.inl (by norm_num))
    simpa using h
  · have h := (C4_write_frame ⟨1, 0⟩ [1, 2, 3, 4, 5, 6, 7, 8] 1).2.2.1
      3735928559 5 (Or.inr (by norm_num))
    simpa using h
  · have h := (C4_write_frame ⟨1, 0⟩
      (MutPtr.write_u32_at ⟨1, 0⟩ [0, 0, 0, 0, 0, 0, 0, 0] 0 287454020) 4).2.2.1
      2864434397 0 (Or.inl (by norm_num))
    rw [h]
    rfl

/-- Claim C5: for every pointee type of the handle (any `elemSize`, not only
byte pointers) and every supported scalar type T, the effective access address
of `read_T_at` and `write_T_at` is the base address plus the offset counted in
bytes — no implicit scaling by the pointee size or by `sizeof(T)`; e.g.
`read_u16_at(p, 1)` on a handle with 4-byte pointee (`*mut u32`) accesses
bytes `base+1` and `base+2`. -/
theorem C5_byte_offset_not_scaled (es b : Nat) (m : Mem) (o : Nat) :
    ((ConstPtr.read_u8_at ⟨es, b⟩ m o).1 = read_unaligned m (b + o) 1) ∧
    ((ConstPtr.read_u16_at ⟨es, b⟩ m o).1 = read_unaligned m (b + o) 2) ∧
    ((ConstPtr.read_u32_at ⟨es, b⟩ m o).1 = read_unaligned m (b + o) 4) ∧
    ((ConstPtr.read_u64_at ⟨es, b⟩ m o).1 = read_unaligned m (b + o) 8) ∧
    ((ConstPtr.read_u128_at ⟨es, b⟩ m o).1 = read_unaligned m (b + o) 16) ∧
    ((ConstPtr.read_usize_at ⟨es, b⟩ m o).1 = read_unaligned m (b + o) 8) ∧
    ((ConstPtr.read_i8_at ⟨es, b⟩ m o).1 = toSigned 1 (read_unaligned m (b + o) 1)) ∧
    ((ConstPtr.read_i16_at ⟨es, b⟩ m o).1 = toSigned 2 (read_unaligned m (b + o) 2)) ∧
    ((ConstPtr.read_i32_at ⟨es, b⟩ m o).1 = toSigned 4 (read_unaligned m (b + o) 4)) ∧
    ((ConstPtr.read_i64_at ⟨es, b⟩ m o).1 = toSigned 8 (read_unaligned m (b + o) 8)) ∧
    ((ConstPtr.read_i128_at ⟨es, b⟩ m o).1 = toSigned 16 (read_unaligned m (b + o) 16)) ∧
    ((ConstPtr.read_isize_at ⟨es, b⟩ m o).1 = toSigned 8 (read_unaligned m (b + o) 8)) ∧
    ((ConstPtr.read_f32_at ⟨es, b⟩ m o).1 = read_unaligned m (b + o) 4) ∧
    ((ConstPtr.read_f64_at ⟨es, b⟩ m o).1 = read_unaligned m (b + o) 8) ∧
    ((ConstPtr.read_bool_at ⟨es, b⟩ m o).1 = (read_unaligned m (b + o) 1 == 1)) ∧
    (∀ v, MutPtr.write_u8_at ⟨es, b⟩ m o v = write_unaligned m (b + o) 1 v) ∧
    (∀ v, MutPtr.write_u16_at ⟨es, b⟩ m o v = write_unaligned m (b + o) 2 v) ∧
    (∀ v, MutPtr.write_u32_at ⟨es, b⟩ m o v = write_unaligned m (b + o) 4 v) ∧
    (∀ v, MutPtr.write_u64_at ⟨es, b⟩ m o v = write_unaligned m (b + o) 8 v) ∧
    (∀ v, MutPtr.write_u128_at ⟨es, b⟩ m o v = write_unaligned m (b + o) 16 v) ∧
    (∀ v, MutPtr.write_usize_at ⟨es, b⟩ m o v = write_unaligned m (b + o) 8 v) ∧
    (∀ v : Int, MutPtr.write_i8_at ⟨es, b⟩ m o v
      = write_unaligned m (b + o) 1 (toUnsigned 1 v)) ∧
    (∀ v : Int, MutPtr.write_i16_at ⟨es, b⟩ m o v
      = write_unaligned m (b + o) 2 (toUnsigned 2 v)) ∧
    (∀ v : Int, MutPtr.write_i32_at ⟨es, b⟩ m o v
      = write_unaligned m (b + o) 4 (toUnsigned 4 v)) ∧
    (∀ v : Int, MutPtr.write_i64_at ⟨es, b⟩ m o v
      = write_unaligned m (b + o) 8 (toUnsigned 8 v)) ∧
    (∀ v : Int, MutPtr.write_i128_at ⟨es, b⟩ m o v
      = write_unaligned m (b + o) 16 (toUnsigned 16 v)) ∧
    (∀ v : Int, MutPtr.write_isize_at ⟨es, b⟩ m o v
      = write_unaligned m (b + o) 8 (toUnsigned 8 v)) ∧
    (∀ v, MutPtr.write_f32_at ⟨es, b⟩ m o v = write_unaligned m (b + o) 4 v) ∧
    (∀ v, MutPtr.write_f64_at ⟨es, b⟩ m o v = write_unaligned m (b + o) 8 v) ∧
    (∀ v : Bool, MutPtr.write_bool_at ⟨es, b⟩ m o v
      = write_unaligned m (b + o) 1 (if v then 1 else 0)) ∧
    ((MutPtr.read_u16_at ⟨4, b⟩ m 1).1 = readByte m (b + 1) + 256 * readByte m (b + 2)) := by
  refine ⟨?_, ?_, ?_, ?_, ?_, ?_, ?_, ?_, ?_, ?_, ?_, ?_, ?_, ?_, ?_, ?_, ?_, ?_, ?_, ?_,
    ?_, ?_, ?_, ?_, ?_, ?_, ?_, ?_, ?_, ?_, ?_⟩
  · simp [ConstPtr.read_u8_at, ConstPtr.asU8, ConstPtr.add]
  · simp [ConstPtr.read_u16_at, ConstPtr.asU8, ConstPtr.add]
  · simp [ConstPtr.read_u32_at, ConstPtr.asU8, ConstPtr.add]
  · simp [ConstPtr.read_u64_at, ConstPtr.asU8, ConstPtr.add]
  · simp [ConstPtr.read_u128_at, ConstPtr.asU8, ConstPtr.add]
  · simp [ConstPtr.read_usize_at, ConstPtr.asU8, ConstPtr.add, USIZE_BYTES]
  · simp [ConstPtr.read_i8_at, ConstPtr.asU8, ConstPtr.add]
  · simp [ConstPtr.read_i16_at, ConstPtr.asU8, ConstPtr.add]
  · simp [ConstPtr.read_i32_at, ConstPtr.asU8, ConstPtr.add]
  · simp [ConstPtr.read_i64_at, ConstPtr.asU8, ConstPtr.add]
  · simp [ConstPtr.read_i128_at, ConstPtr.asU8, ConstPtr.add]
  · simp [ConstPtr.read_isize_at, ConstPtr.asU8, ConstPtr.add, USIZE_BYTES]
  · simp [ConstPtr.read_f32_at, ConstPtr.asU8, ConstPtr.add]
  · simp [ConstPtr.read_f64_at, ConstPtr.asU8, ConstPtr.add]
  · simp [ConstPtr.read_bool_at, ConstPtr.asU8, ConstPtr.add]
  · intro v; simp [MutPtr.write_u8_at, MutPtr.asU8, MutPtr.add]
  · intro v; simp [MutPtr.write_u16_at, MutPtr.asU8, MutPtr.add]
  · intro v; simp [MutPtr.write_u32_at, MutPtr.asU8, MutPtr.add]
  · intro v; simp [MutPtr.write_u64_at, MutPtr.asU8, MutPtr.add]
  · intro v; simp [MutPtr.write_u128_at, MutPtr.asU8, MutPtr.add]
  · intro v; simp [MutPtr.write_usize_at, MutPtr.asU8, MutPtr.add, USIZE_BYTES]
  · intro v; simp [MutPtr.write_i8_at, MutPtr.asU8, MutPtr.add]
  · intro v; simp [MutPtr.write_i16_at, MutPtr.asU8, MutPtr.add]
  · intro v; simp [MutPtr.write_i32_at, MutPtr.asU8, MutPtr.add]
  · intro v; simp [MutPtr.write_i64_at, MutPtr.asU8, MutPtr.add]
  · intro v; simp [MutPtr.write_i128_at, MutPtr.asU8, MutPtr.add]
  · intro v; simp [MutPtr.write_isize_at, MutPtr.asU8, MutPtr.add, USIZE_BYTES]
  · intro v; simp [MutPtr.write_f32_at, MutPtr.asU8, MutPtr.add]
  · intro v; simp [MutPtr.write_f64_at, MutPtr.asU8, MutPtr.add]
  · intro v; simp [MutPtr.write_bool_at, MutPtr.asU8, MutPtr.add]
  · have e2 : b + 2 = b + 1 + 1 := by omega
    simp [MutPtr.read_u16_at, MutPtr.asU8, MutPtr.add, read_unaligned, readBytes,
      fromLEBytes, e2]

/-- Claim C6: for every supported scalar type and both handle variants, a read
leaves the memory unchanged, and a second read of the same offset performed on
the memory state left by the first returns the same value. -/
theorem C6_reads_are_pure (p : ConstPtr) (q : MutPtr) (m : Mem) (o : Nat) :
    ((p.read_u8_at m o).2 = m ∧
      (p.read_u8_at ((p.read_u8_at m o).2) o).1 = (p.read_u8_at m o).1) ∧
    ((p.read_u16_at m o).2 = m ∧
      (p.read_u16_at ((p.read_u16_at m o).2) o).1 = (p.read_u16_at m o).1) ∧
    ((p.read_u32_at m o).2 = m ∧
      (p.read_u32_at ((p.read_u32_at m o).2) o).1 = (p.read_u32_at m o).1) ∧
    ((p.read_u64_at m o).2 = m ∧
      (p.read_u64_at ((p.read_u64_at m o).2) o).1 = (p.read_u64_at m o).1) ∧
    ((p.read_u128_at m o).2 = m ∧
      (p.read_u128_at ((p.read_u128_at m o).2) o).1 = (p.read_u128_at m o).1) ∧
    ((p.read_usize_at m o).2 = m ∧
      (p.read_usize_at ((p.read_usize_at m o).2) o).1 = (p.read_usize_at m o).1) ∧
    ((p.read_i8_at m o).2 = m ∧
      (p.read_i8_at ((p.read_i8_at m o).2) o).1 = (p.read_i8_at m o).1) ∧
    ((p.read_i16_at m o).2 = m ∧
      (p.read_i16_at ((p.read_i16_at m o).2) o).1 = (p.read_i16_at m o).1) ∧
    ((p.read_i32_at m o).2 = m ∧
      (p.read_i32_at ((p.read_i32_at m o).2) o).1 = (p.read_i32_at m o).1) ∧
    ((p.read_i64_at m o).2 = m ∧
      (p.read_i64_at ((p.read_i64_at m o).2) o).1 = (p.read_i64_at m o).1) ∧
    ((p.read_i128_at m o).2 = m ∧
      (p.read_i128_at ((p.read_i128_at m o).2) o).1 = (p.read_i128_at m o).1) ∧
    ((p.read_isize_at m o).2 = m ∧
      (p.read_isize_at ((p.read_isize_at m o).2) o).1 = (p.read_isize_at m o).1) ∧
    ((p.read_f32_at m o).2 = m ∧
      (p.read_f32_at ((p.read_f32_at m o).2) o).1 = (p.read_f32_at m o).1) ∧
    ((p.read_f64_at m o).2 = m ∧
      (p.read_f64_at ((p.read_f64_at m o).2) o).1 = (p.read_f64_at m o).1) ∧
    ((p.read_bool_at m o).2 = m ∧
      (p.read_bool_at ((p.read_bool_at m o).2) o).1 = (p.read_bool_at m o).1) ∧
    ((q.read_u8_at m o).2 = m ∧
      (q.read_u8_at ((q.read_u8_at m o).2) o).1 = (q.read_u8_at m o).1) ∧
    ((q.read_u16_at m o).2 = m ∧
      (q.read_u16_at ((q.read_u16_at m o).2) o).1 = (q.read_u16_at m o).1) ∧
    ((q.read_u32_at m o).2 = m ∧
      (q.read_u32_at ((q.read_u32_at m o).2) o).1 = (q.read_u32_at m o).1) ∧
    ((q.read_u64_at m o).2 = m ∧
      (q.read_u64_at ((q.read_u64_at m o).2) o).1 = (q.read_u64_at m o).1) ∧
    ((q.read_u128_at m o).2 = m ∧
      (q.read_u128_at ((q.read_u128_at m o).2) o).1 = (q.read_u128_at m o).1) ∧
    ((q.read_usize_at m o).2 = m ∧
      (q.read_usize_at ((q.read_usize_at m o).2) o).1 = (q.read_usize_at m o).1) ∧
    ((q.read_i8_at m o).2 = m ∧
      (q.read_i8_at ((q.read_i8_at m o).2) o).1 = (q.read_i8_at m o).1) ∧
    ((q.read_i16_at m o).2 = m ∧
      (q.read_i16_at ((q.read_i16_at m o).2) o).1 = (q.read_i16_at m o).1) ∧
    ((q.read_i32_at m o).2 = m ∧
      (q.read_i32_at ((q.read_i32_at m o).2) o).1 = (q.read_i32_at m o).1) ∧
    ((q.read_i64_at m o).2 = m ∧
      (q.read_i64_at ((q.read_i64_at m o).2) o).1 = (q.read_i64_at m o).1) ∧
    ((q.read_i128_at m o).2 = m ∧
      (q.read_i128_at ((q.read_i128_at m o).2) o).1 = (q.read_i128_at m o).1) ∧
    ((q.read_isize_at m o).2 = m ∧
      (q.read_isize_at ((q.read_isize_at m o).2) o).1 = (q.read_isize_at m o).1) ∧
    ((q.read_f32_at m o).2 = m ∧
      (q.read_f32_at ((q.read_f32_at m o).2) o).1 = (q.read_f32_at m o).1) ∧
    ((q.read_f64_at m o).2 = m ∧
      (q.read_f64_at ((q.read_f64_at m o).2) o).1 = (q.read_f64_at m o).1) ∧
    ((q.read_bool_at m o).2 = m ∧
      (q.read_bool_at ((q.read_bool_at m o).2) o).1 = (q.read_bool_at m o).1) :=
  ⟨⟨rfl, rfl⟩, ⟨rfl, rfl⟩, ⟨rfl, rfl⟩, ⟨rfl, rfl⟩, ⟨rfl, rfl⟩, ⟨rfl, rfl⟩, ⟨rfl, rfl⟩,
    ⟨rfl, rfl⟩, ⟨rfl, rfl⟩, ⟨rfl, rfl⟩, ⟨rfl, rfl⟩, ⟨rfl, rfl⟩, ⟨rfl, rfl⟩, ⟨rfl, rfl⟩,
    ⟨rfl, rfl⟩, ⟨rfl, rfl⟩, ⟨rfl, rfl⟩, ⟨rfl, rfl⟩, ⟨rfl, rfl⟩, ⟨rfl, rfl⟩, ⟨rfl, rfl⟩,
    ⟨rfl, rfl⟩, ⟨rfl, rfl⟩, ⟨rfl, rfl⟩, ⟨rfl, rfl⟩, ⟨rfl, rfl⟩, ⟨rfl, rfl⟩, ⟨rfl, rfl⟩,
    ⟨rfl, rfl⟩, ⟨rfl, rfl⟩⟩

/-- Claim C7: on any buffer of length at least 2, after
`write_bool_at(buf, 0, true)` and `write_bool_at(buf, 1, false)`,
`read_bool_at` returns `true` at offset 0 and `false` at offset 1, and the
underlying bytes at positions 0 and 1 are 1 and 0 respectively. -/
theorem C7_bool_write_read_scenario (es : Nat) (m : Mem) (h : 2 ≤ m.length) :
    ((MutPtr.read_bool_at ⟨es, 0⟩
        (MutPtr.write_bool_at ⟨es, 0⟩ (MutPtr.write_bool_at ⟨es, 0⟩ m 0 true) 1 false) 0).1
      = true) ∧
    ((MutPtr.read_bool_at ⟨es, 0⟩
        (MutPtr.write_bool_at ⟨es, 0⟩ (MutPtr.write_bool_at ⟨es, 0⟩ m 0 true) 1 false) 1).1
      = false) ∧
    (readByte (MutPtr.write_bool_at ⟨es, 0⟩ (MutPtr.write_bool_at ⟨es, 0⟩ m 0 true) 1 false) 0
      = 1) ∧
    (readByte (MutPtr.write_bool_at ⟨es, 0⟩ (MutPtr.write_bool_at ⟨es, 0⟩ m 0 true) 1 false) 1
      = 0) := by
  have hb0 : readByte (write_unaligned (write_unaligned m 0 1 1) 1 1 0) 0 = 1 := by
    rw [readByte_write_unaligned_frame _ 1 1 0 0 (Or.inl (by norm_num))]
    have hin := readByte_write_unaligned_in m 0 1 1 0 (by norm_num) (by omega)
    simpa using hin
  have hb1 : readByte (write_unaligned (write_unaligned m 0 1 1) 1 1 0) 1 = 0 := by
    have hin := readByte_write_unaligned_in (write_unaligned m 0 1 1) 1 1 0 0 (by norm_num)
      (by rw [length_write_unaligned]; omega)
    simpa using hin
  refine ⟨?_, ?_, ?_, ?_⟩ <;>
    simp [MutPtr.read_bool_at, MutPtr.write_bool_at, MutPtr.asU8, MutPtr.add,
      read_unaligned_one, hb0, hb1]

/-- Witness for C7 on the concrete two-byte buffer `[5, 7]`. -/
theorem C7_bool_write_read_scenario_witness :
    ((MutPtr.read_bool_at ⟨1, 0⟩
        (MutPtr.write_bool_at ⟨1, 0⟩ (MutPtr.write_bool_at ⟨1, 0⟩ [5, 7] 0 true) 1 false) 0).1
      = true) ∧
    ((MutPtr.read_bool_at ⟨1, 0⟩
        (MutPtr.write_bool_at ⟨1, 0⟩ (MutPtr.write_bool_at ⟨1, 0⟩ [5, 7] 0 true) 1 false) 1).1
      = false) ∧
    (readByte (MutPtr.write_bool_at ⟨1, 0⟩
        (MutPtr.write_bool_at ⟨1, 0⟩ [5, 7] 0 true) 1 false) 0 = 1) ∧
    (readByte (MutPtr.write_bool_at ⟨1, 0⟩
        (MutPtr.write_bool_at ⟨1, 0⟩ [5, 7] 0 true) 1 false) 1 = 0) :=
  C7_bool_write_read_scenario 1 [5, 7] (by norm_num)

/-- Claim C8: a read-only handle (`*const T`, modelled by `ConstPtr`) exposes
no write operation: the operations below are the complete set the read-only
variant implements (the write trait is implemented only for `*mut T`, modelled
by `MutPtr`, which alone carries the `write_*_at` family in this development),
and every one of them leaves every byte of memory unchanged. -/
theorem C8_const_handle_never_mutates (p : ConstPtr) (m : Mem) (o : Nat) :
    (p.read_u8_at m o).2 = m ∧
    (p.read_u16_at m o).2 = m ∧
    (p.read_u32_at m o).2 = m ∧
    (p.read_u64_at m o).2 = m ∧
    (p.read_u128_at m o).2 = m ∧
    (p.read_usize_at m o).2 = m ∧
    (p.read_i8_at m o).2 = m ∧
    (p.read_i16_at m o).2 = m ∧
    (p.read_i32_at m o).2 = m ∧
    (p.read_i64_at m o).2 = m ∧
    (p.read_i128_at m o).2 = m ∧
    (p.read_isize_at m o).2 = m ∧
    (p.read_f32_at m o).2 = m ∧
    (p.read_f64_at m o).2 = m ∧
    (p.read_bool_at m o).2 = m :=
  ⟨rfl, rfl, rfl, rfl, rfl, rfl, rfl, rfl, rfl, rfl, rfl, rfl, rfl, rfl, rfl⟩

/-- Claim C9: all operations share the same raw bytes of memory, so reading a
same-width type at the offset where another type was written yields the
bit-for-bit reinterpretation: `write_f32_at` then `read_u32_at` yields exactly
the IEEE-754 bit pattern that was written (`v.to_bits`; `f32` values are
represented here by their bit patterns, which the operations move verbatim),
and likewise for `u32`/`f32`, `f64`/`u64` and `u32`/`i32`. -/
theorem C9_same_width_reinterpretation (p : MutPtr) (m : Mem) (o : Nat) :
    (∀ bits : Nat, bits < 256 ^ 4 → p.base + o + 4 ≤ m.length →
      (p.read_u32_at (p.write_f32_at m o bits) o).1 = bits) ∧
    (∀ bits : Nat, bits < 256 ^ 4 → p.base + o + 4 ≤ m.length →
      (p.read_f32_at (p.write_u32_at m o bits) o).1 = bits) ∧
    (∀ bits : Nat, bits < 256 ^ 8 → p.base + o + 8 ≤ m.length →
      (p.read_u64_at (p.write_f64_at m o bits) o).1 = bits) ∧
    (∀ v : Nat, v < 256 ^ 4 → p.base + o + 4 ≤ m.length →
      (p.read_i32_at (p.write_u32_at m o v) o).1 = toSigned 4 v) ∧
    (∀ v : Int, -(2 ^ 31) ≤ v → v < 2 ^ 31 → p.base + o + 4 ≤ m.length →
      (p.read_u32_at (p.write_i32_at m o v) o).1 = toUnsigned 4 v) := by
  refine ⟨?_, ?_, ?_, ?_, ?_⟩
  · intro bits hv hlen
    simp only [MutPtr.read_u32_at, MutPtr.write_f32_at, mutEffAddr]
    exact read_write_unaligned _ _ _ _ hlen hv
  · intro bits hv hlen
    simp only [MutPtr.read_f32_at, MutPtr.write_u32_at, mutEffAddr]
    exact read_write_unaligned _ _ _ _ hlen hv
  · intro bits hv hlen
    simp only [MutPtr.read_u64_at, MutPtr.write_f64_at, mutEffAddr]
    exact read_write_unaligned _ _ _ _ hlen hv
  · intro v hv hlen
    simp only [MutPtr.read_i32_at, MutPtr.write_u32_at, mutEffAddr]
    rw [read_write_unaligned _ _ _ _ hlen hv]
  · intro v _ _ hlen
    simp only [MutPtr.read_u32_at, MutPtr.write_i32_at, mutEffAddr]
    exact read_write_unaligned _ _ _ _ hlen (toUnsigned_lt _ _)

/-- Witness for C9: writing the quiet-NaN bit pattern `0x7FC00000 = 2143289344`
through `write_f32_at` and reading back through `read_u32_at`. -/
theorem C9_same_width_reinterpretation_witness :
    (MutPtr.read_u32_at ⟨1, 0⟩
      (MutPtr.write_f32_at ⟨1, 0⟩ [0, 0, 0, 0] 0 2143289344) 0).1 = 2143289344 :=
  (C9_same_width_reinterpretation ⟨1, 0⟩ [0, 0, 0, 0] 0).1
    2143289344 (by norm_num) (by norm_num)

/-- Claim C10: for every supported scalar type, every pointee size, every
buffer and every offset, the read implementation of the read-only variant
(`impl UnalignedRead for *const T`) and the read implementation of the
read-write variant (`impl UnalignedRead for *mut T`) return identical
value-and-memory results: the two per-variant implementations are
behaviorally equal. -/
theorem C10_const_and_mut_reads_agree (es b : Nat) (m : Mem) (o : Nat) :
    ConstPtr.read_u8_at ⟨es, b⟩ m o = MutPtr.read_u8_at ⟨es, b⟩ m o ∧
    ConstPtr.read_u16_at ⟨es, b⟩ m o = MutPtr.read_u16_at ⟨es, b⟩ m o ∧
    ConstPtr.read_u32_at ⟨es, b⟩ m o = MutPtr.read_u32_at ⟨es, b⟩ m o ∧
    ConstPtr.read_u64_at ⟨es, b⟩ m o = MutPtr.read_u64_at ⟨es, b⟩ m o ∧
    ConstPtr.read_u128_at ⟨es, b⟩ m o = MutPtr.read_u128_at ⟨es, b⟩ m o ∧
    ConstPtr.read_usize_at ⟨es, b⟩ m o = MutPtr.read_usize_at ⟨es, b⟩ m o ∧
    ConstPtr.read_i8_at ⟨es, b⟩ m o = MutPtr.read_i8_at ⟨es, b⟩ m o ∧
    ConstPtr.read_i16_at ⟨es, b⟩ m o = MutPtr.read_i16_at ⟨es, b⟩ m o ∧
    ConstPtr.read_i32_at ⟨es, b⟩ m o = MutPtr.read_i32_at ⟨es, b⟩ m o ∧
    ConstPtr.read_i64_at ⟨es, b⟩ m o = MutPtr.read_i64_at ⟨es, b⟩ m o ∧
    ConstPtr.read_i128_at ⟨es, b⟩ m o = MutPtr.read_i128_at ⟨es, b⟩ m o ∧
    ConstPtr.read_isize_at ⟨es, b⟩ m o = MutPtr.read_isize_at ⟨es, b⟩ m o ∧
    ConstPtr.read_f32_at ⟨es, b⟩ m o = MutPtr.read_f32_at ⟨es, b⟩ m o ∧
    ConstPtr.read_f64_at ⟨es, b⟩ m o = MutPtr.read_f64_at ⟨es, b⟩ m o ∧
    ConstPtr.read_bool_at ⟨es, b⟩ m o = MutPtr.read_bool_at ⟨es, b⟩ m o :=
  ⟨rfl, rfl, rfl, rfl, rfl, rfl, rfl, rfl, rfl, rfl, rfl, rfl, rfl, rfl, rfl⟩

end PtrUtils
